import Mathlib

/-!
Verification of the browser-side form helper of menhera-org/captcha-server-rs.

The program reads the URL query parameters `request-token` and
`redirect-url`, copies them into two input fields, tracks an
`invalidRequest` flag, and exposes a `captchaCallback` function that
enables the submit button unless the flag is set.  Two script variants
exist: the top-level script `src/assets/main.js` and the
DOMContentLoaded-wrapped script `src/unnamed/part_000`.

The embedding models the page as a record of the DOM pieces the scripts
touch (two input field values, the flag, and the disabled property of the
submit button), and the URL as the results of `url.searchParams.get` for
the two parameter names (`none` when the parameter is absent from the
query string).
-/

namespace CaptchaPage

/-- The results of `url.searchParams.get` for the two parameter names:
`none` when the parameter is absent from the query string, `some v`
when it is present with (decoded) value `v`. -/
structure Query where
  requestToken : Option String
  redirectUrl : Option String
deriving DecidableEq, Repr

/-- The page state touched by the scripts: the values of the input
elements `input-request-token` and `input-redirect-url`, the
`invalidRequest` flag, and the `disabled` property of `button-submit`. -/
structure PageState where
  inputRequestToken : String
  inputRedirectUrl : String
  invalidRequest : Bool
  buttonDisabled : Bool
deriving DecidableEq, Repr

/-- JavaScript truthiness of a `searchParams.get` result:
`null` and the empty string are falsy, every other string is truthy.
This is the test performed by `if (requestToken)` and `if (redirectUrl)`
in both script variants. -/
def jsTruthy : Option String → Bool
  | none => false
  | some v => v != ""

/-- Modelled from the spec: the HTML page is not under `src/`.  Per the
spec the submit button starts disabled (the callback "enables a submit
button"; errors leave "the button staying disabled") and the two input
fields start empty ("missing parameters silently leave fields empty"). -/
def initialState : PageState :=
  { inputRequestToken := ""
    inputRedirectUrl := ""
    invalidRequest := false
    buttonDisabled := true }

/-- First hydration step of `src/assets/main.js` (lines 10-14):
`if (requestToken) { inputRequestToken.value = requestToken; }
else { invalidRequest = true; }`. -/
def loadStep1 (requestToken : Option String) (s : PageState) : PageState :=
  if jsTruthy requestToken then
    { s with inputRequestToken := requestToken.getD "" }
  else
    { s with invalidRequest := true }

/-- Second hydration step of `src/assets/main.js` (lines 16-20):
`if (redirectUrl) { inputRedirectUrl.value = redirectUrl; }
else { invalidRequest = true; }`. -/
def loadStep2 (redirectUrl : Option String) (s : PageState) : PageState :=
  if jsTruthy redirectUrl then
    { s with inputRedirectUrl := redirectUrl.getD "" }
  else
    { s with invalidRequest := true }

/-- The load step of `src/assets/main.js`: `let invalidRequest = false`
followed by the two hydration conditionals. -/
def load (q : Query) (s : PageState) : PageState :=
  loadStep2 q.redirectUrl (loadStep1 q.requestToken { s with invalidRequest := false })

/-- `captchaCallback` of `src/assets/main.js` (lines 23-28): returns
early when `invalidRequest` is set, otherwise clears
`buttonSubmit.disabled`.  The token argument is never read. -/
def captchaCallback (captchaToken : String) (s : PageState) : PageState :=
  if s.invalidRequest then s else { s with buttonDisabled := false }

/-- A sequence of `captchaCallback` invocations with the given token
arguments, applied in order. -/
def applyCallbacks (tokens : List String) (s : PageState) : PageState :=
  tokens.foldl (fun s t => captchaCallback t s) s

/-!
The second script variant, `src/unnamed/part_000`.  Its top level sets
`invalidRequest = false` and registers a DOMContentLoaded handler that
performs the same two hydration conditionals; `loadB` is the state after
the page has finished loading (top-level initialisation followed by the
handler).  Its `captchaCallback` (lines 26-31) has the same body as the
one in `main.js`.
-/

/-- The DOMContentLoaded handler of `src/unnamed/part_000`
(lines 4-24): the two hydration conditionals. -/
def domContentLoadedB (q : Query) (s : PageState) : PageState :=
  loadStep2 q.redirectUrl (loadStep1 q.requestToken s)

/-- Load of `src/unnamed/part_000`: top-level `let invalidRequest = false`
(line 1), then the DOMContentLoaded handler fires. -/
def loadB (q : Query) (s : PageState) : PageState :=
  domContentLoadedB q { s with invalidRequest := false }

/-- `captchaCallback` of `src/unnamed/part_000` (lines 26-31). -/
def captchaCallbackB (captchaToken : String) (s : PageState) : PageState :=
  if s.invalidRequest then s else { s with buttonDisabled := false }

/-- A sequence of invocations of the `part_000` callback. -/
def applyCallbacksB (tokens : List String) (s : PageState) : PageState :=
  tokens.foldl (fun s t => captchaCallbackB t s) s

/-! Helper lemmas. -/

/-- The load step never touches the submit button. -/
theorem load_buttonDisabled (q : Query) (s : PageState) :
    (load q s).buttonDisabled = s.buttonDisabled := by
  unfold load loadStep2 loadStep1
  split <;> split <;> rfl

/-- The flag after the load step: set iff either parameter is falsy. -/
theorem load_invalidRequest (q : Query) (s : PageState) :
    (load q s).invalidRequest = (!jsTruthy q.requestToken || !jsTruthy q.redirectUrl) := by
  unfold load loadStep2 loadStep1
  cases h1 : jsTruthy q.requestToken <;> cases h2 : jsTruthy q.redirectUrl <;> simp [h1, h2]

/-- `captchaCallback` never changes the flag. -/
theorem captchaCallback_invalidRequest (t : String) (s : PageState) :
    (captchaCallback t s).invalidRequest = s.invalidRequest := by
  unfold captchaCallback
  split <;> rfl

/-- A callback sequence never changes the flag. -/
theorem applyCallbacks_invalidRequest (ts : List String) (s : PageState) :
    (applyCallbacks ts s).invalidRequest = s.invalidRequest := by
  induction ts generalizing s with
  | nil => rfl
  | cons t ts ih =>
      simpa [applyCallbacks, captchaCallback_invalidRequest]
        using ih (captchaCallback t s)

/-- When the flag is set, a callback sequence changes nothing at all. -/
theorem applyCallbacks_of_invalid (ts : List String) (s : PageState)
    (h : s.invalidRequest = true) : applyCallbacks ts s = s := by
  induction ts with
  | nil => rfl
  | cons t ts ih =>
      simp [applyCallbacks, captchaCallback, h] at ih ⊢
      exact ih

/-! Claim theorems. -/

/-- Claim C1, counterexample: the claim quantifies over URLs in which both
parameters are *present*.  With `request-token` present but equal to the
empty string (URL query `?request-token=&redirect-url=r`), the truthiness
test `if (requestToken)` fails, `invalidRequest` is set, and the callback
returns early, so the submit button does not become enabled: its disabled
property is not false after load followed by `captchaCallback`. -/
theorem c1_counterexample :
    ¬ (captchaCallback "tok"
        (load { requestToken := some "", redirectUrl := some "r" }
          initialState)).buttonDisabled = false := by
  decide

/-- Claim C1 (amended): for every page state in which both query
parameters are present *with non-empty values*, after the load step runs
and then `captchaCallback` is invoked with any token argument, the submit
button's disabled property is false. -/
theorem c1_both_nonempty_enables (q : Query) (s : PageState) (rt ru t : String)
    (hrt : q.requestToken = some rt) (hrtne : rt ≠ "")
    (hru : q.redirectUrl = some ru) (hrune : ru ≠ "") :
    (captchaCallback t (load q s)).buttonDisabled = false := by
  have hinv : (load q s).invalidRequest = false := by
    rw [load_invalidRequest, hrt, hru]
    simp [jsTruthy, hrtne, hrune]
  unfold captchaCallback
  rw [hinv]
  simp

/-- Claim C1 witness: the amended theorem at a concrete input. -/
theorem c1_witness :
    (captchaCallback "tok"
      (load { requestToken := some "a", redirectUrl := some "r" }
        initialState)).buttonDisabled = false :=
  c1_both_nonempty_enables _ initialState "a" "r" "tok" rfl (by decide) rfl (by decide)

/-- Claim C2: when at least one of the two query parameters is missing,
the submit button's disabled property stays true after the load step and
after any number of `captchaCallback` invocations with any tokens,
provided it was true before the load step (the button starts disabled). -/
theorem c2_missing_stays_disabled (q : Query) (s : PageState) (ts : List String)
    (hmiss : q.requestToken = none ∨ q.redirectUrl = none)
    (hbtn : s.buttonDisabled = true) :
    (load q s).buttonDisabled = true ∧
    (applyCallbacks ts (load q s)).buttonDisabled = true := by
  have hb : (load q s).buttonDisabled = true := by
    rw [load_buttonDisabled]; exact hbtn
  have hinv : (load q s).invalidRequest = true := by
    rw [load_invalidRequest]
    rcases hmiss with h | h <;> rw [h] <;> simp [jsTruthy]
  refine ⟨hb, ?_⟩
  rw [applyCallbacks_of_invalid ts _ hinv]
  exact hb

/-- Claim C2 witness: the theorem at a concrete input. -/
theorem c2_witness :
    (load { requestToken := none, redirectUrl := some "r" } initialState).buttonDisabled = true ∧
    (applyCallbacks ["t1", "t2"]
      (load { requestToken := none, redirectUrl := some "r" } initialState)).buttonDisabled = true :=
  c2_missing_stays_disabled _ initialState ["t1", "t2"] (Or.inl rfl) rfl

/-- Claim C3, counterexample: with both parameters present but
`request-token` equal to the empty string, `invalidRequest` is true after
the load step even though neither parameter was absent, so the claimed
equivalence (flag true iff a parameter was absent) fails. -/
theorem c3_counterexample :
    ¬ ((load { requestToken := some "", redirectUrl := some "r" }
          initialState).invalidRequest = true ↔
        (({ requestToken := some "", redirectUrl := some "r" } : Query).requestToken = none ∨
         ({ requestToken := some "", redirectUrl := some "r" } : Query).redirectUrl = none)) := by
  decide

/-- Claim C3 (amended): after the load step, `invalidRequest` is true iff
at least one of the two query parameters was absent *or present with the
empty-string value* (i.e. falsy to the `if` tests), and the equivalence is
preserved by every subsequent sequence of `captchaCallback` invocations. -/
theorem c3_invalid_iff_falsy_param (q : Query) (s : PageState) (ts : List String) :
    (applyCallbacks ts (load q s)).invalidRequest = true ↔
      (q.requestToken = none ∨ q.requestToken = some "" ∨
       q.redirectUrl = none ∨ q.redirectUrl = some "") := by
  rw [applyCallbacks_invalidRequest, load_invalidRequest]
  cases hrt : q.requestToken <;> cases hru : q.redirectUrl <;>
    simp [jsTruthy]

/-- Claim C4: when both query parameters are present, the load step
leaves `input-request-token` holding exactly the value of
`request-token` and `input-redirect-url` holding exactly the value of
`redirect-url`, given the input fields start out empty (they are empty
in the freshly loaded page).  The present-but-empty case is covered
because the field is then left at its initial empty value, which equals
the parameter value. -/
theorem c4_fields_reflect_params (q : Query) (s : PageState) (rt ru : String)
    (hrt : q.requestToken = some rt) (hru : q.redirectUrl = some ru)
    (h1 : s.inputRequestToken = "") (h2 : s.inputRedirectUrl = "") :
    (load q s).inputRequestToken = rt ∧ (load q s).inputRedirectUrl = ru := by
  unfold load loadStep2 loadStep1
  rw [hrt, hru]
  by_cases hrte : rt = "" <;> by_cases hrue : ru = "" <;>
    simp [jsTruthy, hrte, hrue] <;> simp_all

/-- Claim C4 witness: the theorem at a concrete input. -/
theorem c4_witness :
    (load { requestToken := some "a", redirectUrl := some "r" }
      initialState).inputRequestToken = "a" ∧
    (load { requestToken := some "a", redirectUrl := some "r" }
      initialState).inputRedirectUrl = "r" :=
  c4_fields_reflect_params _ initialState "a" "r" rfl rfl rfl rfl

/-- Claim C5: when a query parameter is missing, the load step leaves the
corresponding input field's value unchanged (hence empty when it started
empty) and does not touch the submit button; the source has no throwing
operation on this path, so the load step is embedded as a total function
and no error is raised or reported. -/
theorem c5_missing_leaves_field_unchanged (q : Query) (s : PageState) :
    (q.requestToken = none →
      (load q s).inputRequestToken = s.inputRequestToken) ∧
    (q.redirectUrl = none →
      (load q s).inputRedirectUrl = s.inputRedirectUrl) ∧
    (load q s).buttonDisabled = s.buttonDisabled := by
  refine ⟨?_, ?_, load_buttonDisabled q s⟩
  · intro h
    unfold load loadStep2 loadStep1
    rw [h]
    simp [jsTruthy]
    split <;> rfl
  · intro h
    unfold load loadStep2 loadStep1
    rw [h]
    simp [jsTruthy]
    split <;> rfl

/-- Claim C5 witness: the theorem at a concrete input, with non-empty
initial field values to show they are genuinely unchanged. -/
theorem c5_witness :
    (load { requestToken := none, redirectUrl := none }
      { inputRequestToken := "x", inputRedirectUrl := "y",
        invalidRequest := false, buttonDisabled := true }).inputRequestToken = "x" ∧
    (load { requestToken := none, redirectUrl := none }
      { inputRequestToken := "x", inputRedirectUrl := "y",
        invalidRequest := false, buttonDisabled := true }).inputRedirectUrl = "y" :=
  ⟨(c5_missing_leaves_field_unchanged _ _).1 rfl,
   (c5_missing_leaves_field_unchanged _ _).2.1 rfl⟩

/-- Claim C6: a `captchaCallback` invocation changes at most the submit
button's disabled property; the two input field values and the
`invalidRequest` flag are unchanged for every state and every token.  The
callback takes no query argument in the embedding, so the URL cannot be
affected, and `PageState` lists every state component the scripts touch. -/
theorem c6_callback_frame (s : PageState) (t : String) :
    (captchaCallback t s).inputRequestToken = s.inputRequestToken ∧
    (captchaCallback t s).inputRedirectUrl = s.inputRedirectUrl ∧
    (captchaCallback t s).invalidRequest = s.invalidRequest := by
  unfold captchaCallback
  split <;> simp

/-- Claim C7: a query parameter present with the empty-string value is
treated exactly like an absent one: the load step produces the same state
as with the parameter absent, the corresponding field is not written,
`invalidRequest` is set, and the submit button can never become enabled
(it stays disabled through any callback sequence when it started
disabled). -/
theorem c7_empty_like_absent (q : Query) (s : PageState) (ts : List String) :
    (q.requestToken = some "" →
      load q s = load { q with requestToken := none } s ∧
      (load q s).inputRequestToken = s.inputRequestToken) ∧
    (q.redirectUrl = some "" →
      load q s = load { q with redirectUrl := none } s ∧
      (load q s).inputRedirectUrl = s.inputRedirectUrl) ∧
    ((q.requestToken = some "" ∨ q.redirectUrl = some "") →
      (load q s).invalidRequest = true ∧
      (s.buttonDisabled = true →
        (applyCallbacks ts (load q s)).buttonDisabled = true)) := by
  refine ⟨?_, ?_, ?_⟩
  · intro h
    constructor
    · unfold load loadStep2 loadStep1
      rw [h]
      simp [jsTruthy]
    · unfold load loadStep2 loadStep1
      rw [h]
      simp [jsTruthy]
      split <;> rfl
  · intro h
    constructor
    · unfold load loadStep2 loadStep1
      rw [h]
      simp [jsTruthy]
    · unfold load loadStep2 loadStep1
      rw [h]
      simp [jsTruthy]
      split <;> rfl
  · intro h
    have hinv : (load q s).invalidRequest = true := by
      rw [load_invalidRequest]
      rcases h with h | h <;> rw [h] <;> simp [jsTruthy]
    refine ⟨hinv, fun hbtn => ?_⟩
    rw [applyCallbacks_of_invalid ts _ hinv, load_buttonDisabled]
    exact hbtn

/-- Claim C7 witness: the theorem at a concrete input. -/
theorem c7_witness :
    load { requestToken := some "", redirectUrl := some "r" } initialState =
      load { requestToken := none, redirectUrl := some "r" } initialState ∧
    (load { requestToken := some "", redirectUrl := some "r" }
      initialState).invalidRequest = true ∧
    (applyCallbacks ["t1"]
      (load { requestToken := some "", redirectUrl := some "r" }
        initialState)).buttonDisabled = true :=
  ⟨((c7_empty_like_absent _ initialState ["t1"]).1 rfl).1,
   ((c7_empty_like_absent _ initialState ["t1"]).2.2 (Or.inl rfl)).1,
   ((c7_empty_like_absent _ initialState ["t1"]).2.2 (Or.inl rfl)).2 rfl⟩

/-- Claim C8: the token argument has no influence: invoking
`captchaCallback` with any two tokens from the same state yields exactly
the same resulting state. -/
theorem c8_token_irrelevant (s : PageState) (t1 t2 : String) :
    captchaCallback t1 s = captchaCallback t2 s := rfl

/-- The two load variants agree pointwise. -/
theorem loadB_eq_load (q : Query) (s : PageState) : loadB q s = load q s := rfl

/-- The two callback-sequence variants agree pointwise. -/
theorem applyCallbacksB_eq (ts : List String) (s : PageState) :
    applyCallbacksB ts s = applyCallbacks ts s := by
  induction ts generalizing s with
  | nil => rfl
  | cons t ts ih =>
      simpa [applyCallbacksB, applyCallbacks] using ih (captchaCallbackB t s)

/-- Claim C9: for every URL and every sequence of callback invocations
performed after the page has finished loading, the two script variants
(the top-level `src/assets/main.js` and the DOMContentLoaded-wrapped
`src/unnamed/part_000`) produce identical final page states, in
particular identical input fields, flag, and disabled property. -/
theorem c9_variants_equivalent (q : Query) (s : PageState) (ts : List String) :
    applyCallbacksB ts (loadB q s) = applyCallbacks ts (load q s) := by
  rw [applyCallbacksB_eq, loadB_eq_load]

end CaptchaPage
